import Mathlib

/-!
Verification development for the PhaseRetrievalGUI repository.

Shallow embedding of the pure/state-passing content of
`TrackingClasses.py`, `bioformats_helper.py` and `PR_applet_sized.py`:

* Python `int` values are modelled as `Int`, Python `float` values as `ℚ`
  (only comparisons and exact arithmetic on them matter for the
  properties below), Python strings as `String`, Python `bool` as `Bool`.
* Mutable objects become immutable records with explicit state passing:
  a Python method mutating `self` becomes a Lean function
  `State → ... → State`.
* The external pyOTF library is not part of the repository; where the
  code consumes it (the `zernike.noll2name` dictionary and
  `utils.prep_data_for_PR`) the embedding is parametrised by that data
  instead of fixing it.
* Fallible Python code (raising exceptions) is modelled with
  `Except`/`Option`, and the GUI side effects of `initiate_pr` /
  `check_pr_results` are modelled as explicit effect descriptions.
-/

namespace PhaseRetrievalGUI

/-- A pixel stack (the numpy array holding the measured PSF).  Only its
shape is ever inspected by the code under verification
(`PsfandFitParameters.verify` compares `psf_data.shape` against
`(z_size, xy_size, xy_size)`), so the stack is modelled by its shape. -/
structure PixelStack where
  shape : Nat × Nat × Nat
deriving DecidableEq, Repr

/-- State of `TrackingClasses.PrState`: the tkinter variables
`current_state`, `current_iter`, `current_pupil_diff`,
`current_mse_diff`, `pr_finished` become record fields. -/
structure PrState where
  current_state : String
  current_iter : Int
  current_pupil_diff : ℚ
  current_mse_diff : ℚ
  pr_finished : Bool
deriving DecidableEq, Repr

namespace PrState

/-- Model of `PrState.__init__`: fresh tkinter variables hold 0 / "" / false,
then the constructor sets the status message and `pr_finished = False`. -/
def init : PrState :=
  { current_state := "Phase retrieval not started yet"
    current_iter := 0
    current_pupil_diff := 0
    current_mse_diff := 0
    pr_finished := false }

/-- Model of `PrState.reset_state`: sets iteration and the two differences to 0
and `pr_finished` to `False`; the status message is not touched. -/
def reset_state (s : PrState) : PrState :=
  { s with
    current_iter := 0
    current_pupil_diff := 0
    current_mse_diff := 0
    pr_finished := false }

end PrState

/-- State of `TrackingClasses.PsfandFitParameters`: each
`PsfFitParameter`'s tkinter variable becomes a plain field (the `name`
and `unit` attributes are constants, recovered by
`NamedParameters.get_name` below). -/
structure PsfandFitParameters where
  em_wavelength : Int
  num_aperture : ℚ
  refractive_index : ℚ
  xy_res : Int
  z_res : Int
  psf_data : PixelStack
  psf_data_prepped : PixelStack
  xy_size : Nat
  z_size : Nat
  max_iterations : Int
  pupil_tolerance : ℚ
  mse_tolerance : ℚ
  phase_tolerance : ℚ
  is_initiated : Bool
deriving DecidableEq, Repr

namespace PsfandFitParameters

/-- Model of `PsfandFitParameters.verify`: asserts that every entry of the
`parameters_initialized` tuple is truthy (a Python number is truthy iff
it is non-zero) and that `psf_data.shape == (z_size, xy_size, xy_size)`;
a failed assertion is caught and turned into `False`, otherwise the
method returns `True`. -/
def verify (p : PsfandFitParameters) : Bool :=
  decide (p.em_wavelength ≠ 0) &&
  decide (p.num_aperture ≠ 0) &&
  decide (p.refractive_index ≠ 0) &&
  decide (p.xy_res ≠ 0) &&
  decide (p.z_res ≠ 0) &&
  decide (p.max_iterations ≠ 0) &&
  decide (p.pupil_tolerance ≠ 0) &&
  decide (p.mse_tolerance ≠ 0) &&
  decide (p.psf_data.shape = (p.z_size, p.xy_size, p.xy_size))

/-- Helper for `PsfandFitParameters.voxel_aspect`, which divides
`z_res.value.get() / float(xy_res.value.get())` with no guard; Python
raises `ZeroDivisionError` when the denominator is zero, modelled with
`Except`. -/
def pyDiv (a b : ℚ) : Except String ℚ :=
  if b = 0 then .error "ZeroDivisionError" else .ok (a / b)

/-- The `voxel_aspect` property of `PsfandFitParameters`. -/
def voxel_aspect (p : PsfandFitParameters) : Except String ℚ :=
  pyDiv (p.z_res : ℚ) (p.xy_res : ℚ)

end PsfandFitParameters

/-- The acquisition parameters and data read by
`bioformats_helper.PsfImageDataAndParameters` on success. -/
structure PsfInfo where
  numerical_aperture : ℚ
  refractive_index : ℚ
  pixel_size_xy : Int
  pixel_size_z : Int
  image_size_xy : Nat
  image_size_z : Nat
  image_data : PixelStack
deriving DecidableEq, Repr

/-- Outcome of constructing
`bioformats_helper.PsfImageDataAndParameters(psf_file_path)`: either the
parameters and data are read, or an `AssertionError` is raised
(unsupported format / invalid image data, always raised with an explicit
message), or some other exception escapes (unreadable or invalid path).
The construction itself performs file I/O through the external
bioformats/javabridge stack, so the embedding quantifies over its
outcome. -/
inductive AcqOutcome where
  | ok (info : PsfInfo)
  | assertionError (msg : String)
  | otherError (msg : String)
deriving DecidableEq, Repr

namespace PsfandFitParameters

/-- Model of `PsfandFitParameters.read_data_and_parameters`: clears
`is_initiated`, constructs the acquisition helper, and on success copies
every acquisition field and preps the data via
`pyOTF.utils.prep_data_for_PR(psf_data, xy_size * 2)` (external, passed
in as `prep`); either exception kind only pops a warning box (whose
title, returned in the second component, distinguishes the kind:
`AssertionError` vs any other exception) and leaves the attributes
untouched. -/
def read_data_and_parameters (prep : PixelStack → Nat → PixelStack)
    (s : PsfandFitParameters) (outcome : AcqOutcome) :
    PsfandFitParameters × Option String :=
  let s0 := { s with is_initiated := false }
  match outcome with
  | .assertionError _ => (s0, some "PSF file parameters or data not read correctly")
  | .otherError _ => (s0, some "Invalid PSF file path")
  | .ok info =>
      ({ s0 with
        num_aperture := info.numerical_aperture
        refractive_index := info.refractive_index
        xy_res := info.pixel_size_xy
        z_res := info.pixel_size_z
        xy_size := info.image_size_xy
        z_size := info.image_size_z
        psf_data := info.image_data
        psf_data_prepped := prep info.image_data (info.image_size_xy * 2)
        is_initiated := true }, none)

end PsfandFitParameters

/-- Effects of one call of `MainWindow.check_pr_results`
(`PR_applet_sized.py`): whether it re-schedules itself via
`self.after(250, ...)` and whether it re-renders the result artifacts
(`display_pr_results`). -/
structure PollEffects where
  rescheduleAfterMs : Option Nat
  rerender : Bool
deriving DecidableEq, Repr

/-- Model of `MainWindow.check_pr_results`: while the phase-retrieval thread is
alive it re-schedules itself after 250 ms and re-renders exactly when
`current_iter > 0 and current_iter % 5 == 0`; once the thread has
stopped it renders the final results and does not re-schedule. -/
def check_pr_results (threadAlive : Bool) (st : PrState) : PollEffects :=
  if threadAlive then
    { rescheduleAfterMs := some 250
      rerender := decide (st.current_iter > 0) && decide (st.current_iter % 5 = 0) }
  else
    { rescheduleAfterMs := none, rerender := true }

/-- Model of `MainWindow.initiate_pr`: when `verify()` succeeds the progress
state is reset, the background thread is started, the status message is
set to "Phase retrieval running..." and the first poll is scheduled
after 250 ms; otherwise `verify` has already shown the validation
warning box and nothing is started.  The result is `some` of the fresh
progress state and the poll delay when the run starts, `none` when it
does not. -/
def initiate_pr (p : PsfandFitParameters) (st : PrState) :
    Option (PrState × Nat) :=
  if p.verify then
    some ({ st.reset_state with current_state := "Phase retrieval running..." }, 250)
  else
    none

/-- One entry of `ZernikeDecomposition.zernike_polynomials`
(`TrackingClasses.ZernikeDecomposition.ZernikePolynomial`): `order` and
`name` come from the pyOTF `noll2name` dictionary; `value` holds the
phase coefficient; `in_tolerance` is `None` until classified, then the
Python bool `abs(value) < tolerance`. -/
structure ZernikePolynomial where
  order : Nat
  name : String
  value : ℚ
  in_tolerance : Option Bool
deriving DecidableEq, Repr

/-- State of `TrackingClasses.ZernikeDecomposition`, parametrised below
by the external `pyOTF.zernike.noll2name` dictionary (an insertion
ordered association list `Nat × String`). -/
structure ZernikeDecomposition where
  zernike_names_dict : List (Nat × String)
  ordered_coeff_names : List String
  zernike_polynomials : List ZernikePolynomial
  important_coeff_orders : List Nat
deriving DecidableEq, Repr

namespace ZernikeDecomposition

/-- Python dictionary lookup `d[k]` on a `Nat`-keyed dict, with `""` for
a missing key (the real `noll2name` has the consecutive keys `1..N`, so
the default is never hit by the constructor below). -/
def dictGetD (d : List (Nat × String)) (k : Nat) : String :=
  ((d.find? (fun p => decide (p.1 = k))).map Prod.snd).getD ""

/-- Model of `ZernikeDecomposition.initialize_polynomial_list`: rebuilds
`zernike_polynomials` from the dictionary items with value 0 and
`in_tolerance = None`, then sorts ascending by order (Python
`list.sort(key=lambda p: p.order)`, a stable sort). -/
def initialize_polynomial_list (names : List (Nat × String)) :
    List ZernikePolynomial :=
  (names.map (fun kv => ZernikePolynomial.mk kv.1 kv.2 0 none)).mergeSort
    (fun a b => decide (a.order ≤ b.order))

/-- Model of `ZernikeDecomposition.__init__` with the external dictionary given:
`ordered_coeff_names = [noll2name[i + 1] for i in range(len(noll2name))]`,
`important_coeff_orders = (5, 6, 7, 8, 11)`, and the polynomial list is
populated by `initialize_polynomial_list`. -/
def init (noll2name : List (Nat × String)) : ZernikeDecomposition :=
  { zernike_names_dict := noll2name
    ordered_coeff_names :=
      (List.range noll2name.length).map (fun i => dictGetD noll2name (i + 1))
    zernike_polynomials := initialize_polynomial_list noll2name
    important_coeff_orders := [5, 6, 7, 8, 11] }

/-- Re-running `initialize_polynomial_list` on the state: the method
overwrites `self.zernike_polynomials` and touches nothing else. -/
def reinitialize (s : ZernikeDecomposition) : ZernikeDecomposition :=
  { s with zernike_polynomials := initialize_polynomial_list s.zernike_names_dict }

/-- The `zip`-driven update loop of
`decomposition_from_phase_retrieval`: each paired polynomial gets
`value = phase_coefficient` and
`in_tolerance = abs(phase_coefficient) < phase_tolerance`; unpaired
entries of either list are left alone (`zip` truncates). -/
def classifyZip : List ZernikePolynomial → List ℚ → ℚ → List ZernikePolynomial
  | ps, [], _ => ps
  | [], _ :: _, _ => []
  | p :: ps, c :: cs, tol =>
      { p with value := c, in_tolerance := some (decide (|c| < tol)) } ::
        classifyZip ps cs tol

/-- Model of `ZernikeDecomposition.decomposition_from_phase_retrieval`: slices
the raw solver coefficients to `len(ordered_coeff_names)`
(`pcoefs[:len(self.ordered_coeff_names)]`) and zips them with the
polynomial list. -/
def decomposition_from_phase_retrieval (s : ZernikeDecomposition)
    (pcoefs : List ℚ) (phase_tolerance : ℚ) : ZernikeDecomposition :=
  { s with
    zernike_polynomials :=
      classifyZip s.zernike_polynomials
        (pcoefs.take s.ordered_coeff_names.length) phase_tolerance }

end ZernikeDecomposition

/-- Model of `NamedParameters.get_name`: the private `__key_to_name` dictionary,
with `''` returned on `KeyError`. -/
def get_name (key : String) : String :=
  if key = "wl" then "Emission wavelength"
  else if key = "na" then "Numerical aperture"
  else if key = "ni" then "Refractive index"
  else if key = "res" then "xy-Resolution"
  else if key = "zres" then "z-Resolution"
  else if key = "max_iters" then "Maximum iterations"
  else if key = "pupil_tol" then "Minimal pupil function difference"
  else if key = "mse_tol" then "Minimal relative MSE difference"
  else if key = "phase_tol" then "Tolerable phase deviation"
  else ""

/-- A value written into a worksheet cell: Python writes strings, ints
and floats. -/
inductive CellVal where
  | s (v : String)
  | i (v : Int)
  | q (v : ℚ)
deriving DecidableEq, Repr

/-- The xlsxwriter format object passed with a cell write: the default
format, `bold_format` (`{'bold': True}`), or `short_number_format`
(numeric display format `'0.00'`, two decimals). -/
inductive CellFormat where
  | default
  | bold
  | shortNumber
deriving DecidableEq, Repr

/-- One `worksheet.write(row, col, value[, format])` call. -/
structure CellWrite where
  row : Nat
  col : Nat
  value : CellVal
  fmt : CellFormat
deriving DecidableEq, Repr

namespace PsfandFitParameters

/-- Model of `PsfandFitParameters.psf_parameter_dict`: the five PSF parameters
keyed for the solver kwargs, in insertion order. -/
def psf_parameter_dict (p : PsfandFitParameters) : List (String × CellVal) :=
  [("wl", .i p.em_wavelength),
   ("na", .q p.num_aperture),
   ("ni", .q p.refractive_index),
   ("res", .i p.xy_res),
   ("zres", .i p.z_res)]

/-- Model of `PsfandFitParameters.fit_parameter_dict`: the three fit parameters
keyed for the solver kwargs, in insertion order. -/
def fit_parameter_dict (p : PsfandFitParameters) : List (String × CellVal) :=
  [("max_iters", .i p.max_iterations),
   ("pupil_tol", .q p.pupil_tolerance),
   ("mse_tol", .q p.mse_tolerance)]

end PsfandFitParameters

namespace ZdResultWorkbook

/-- The inner `add_parameter_entries(start_row, start_col, param_dict)`
of `ZdResultWorkbook.add_entries`: one label/value pair of writes per
dictionary item, on consecutive rows (`zip` with
`range(start_row, start_row + len(param_dict))`). -/
def add_parameter_entries : Nat → Nat → List (String × CellVal) → List CellWrite
  | _, _, [] => []
  | row, col, (key, v) :: rest =>
      let unit : String :=
        if key = "wl" ∨ key = "res" ∨ key = "zres" then "nm"
        else if key = "phase_tol" then "λ" else ""
      let label : String :=
        if unit ≠ "" then get_name key ++ " in " ++ unit else get_name key
      { row := row, col := col, value := .s label, fmt := .default } ::
      { row := row, col := col + 1, value := v, fmt := .default } ::
      add_parameter_entries (row + 1) col rest

/-- The Zernike-result rows of `add_entries`: for the polynomial at
`zip` index `r` three writes at row `r + 11` hold its order, name and
value, the value with `short_number_format`. -/
def polynomial_rows : List ZernikePolynomial → Nat → List CellWrite
  | [], _ => []
  | p :: ps, r =>
      { row := r + 11, col := 0, value := .i (p.order : Int), fmt := .default } ::
      { row := r + 11, col := 1, value := .s p.name, fmt := .default } ::
      { row := r + 11, col := 2, value := .q p.value, fmt := .shortNumber } ::
      polynomial_rows ps (r + 1)

/-- Model of `ZdResultWorkbook.add_entries` for a workbook built from a
`PsfandFitParameters` object (the GUI path, where `psf_param_dict` and
`fit_param_dict` are derived from it): the full ordered sequence of
`worksheet.write` calls. -/
def add_entries (psf_path : String) (p : PsfandFitParameters)
    (pr_state : PrState) (zernike_polynomials : List ZernikePolynomial) :
    List CellWrite :=
  let current_iteration_string :=
    "Phase retrieval stopped after iteration " ++ toString pr_state.current_iter ++
      " out of " ++ toString p.max_iterations ++ "."
  let pr_state_string := pr_state.current_state.replace "\n" " "
  { row := 0, col := 0, value := .s psf_path, fmt := .bold } ::
  { row := 2, col := 0, value := .s "PSF Parameters", fmt := .bold } ::
  add_parameter_entries 3 0 p.psf_parameter_dict ++
  { row := 2, col := 2, value := .s "Phase Retrieval Parameters", fmt := .bold } ::
  add_parameter_entries 3 2 p.fit_parameter_dict ++
  { row := 6, col := 2, value := .s current_iteration_string, fmt := .default } ::
  { row := 7, col := 2, value := .s pr_state_string, fmt := .bold } ::
  { row := 9, col := 0, value := .s "Zernike Decomposition Results", fmt := .bold } ::
  { row := 10, col := 0, value := .s "Noll Order", fmt := .bold } ::
  { row := 10, col := 1, value := .s "Noll Name", fmt := .bold } ::
  { row := 10, col := 2, value := .s "Value", fmt := .bold } ::
  polynomial_rows zernike_polynomials 0

end ZdResultWorkbook

namespace PdfReport

/-- One `c.drawString(x, y, text)` call of the termination note block. -/
structure DrawnString where
  x : Nat
  y : Nat
  text : String
deriving DecidableEq, Repr

/-- Python `str.split` for the one-character separator `'\n'`, on the
character list of the string: `"".split('\n') == ['']`, a trailing
separator yields a trailing empty part. -/
def splitNl : List Char → List (List Char)
  | [] => [[]]
  | c :: cs =>
      let r := splitNl cs
      if c = '\n' then [] :: r else (c :: r.headD []) :: r.tail

/-- The termination-note block of `PdfReport.create_pdf_report`
(the three independent `if` statements on the split status message):
`condition_strings = current_state.split('\n')`; one line draws a single
summary (the message with its last character sliced off by `[:-1]`) at
y = 340; two lines with `current_iter == max_iters` draw both lines
verbatim at y = 355 / y = 340; two lines with
`current_iter < max_iters` draw a "During iteration i / n " line at
y = 355 above the second line at y = 340. -/
def terminationNote (current_state : String) (current_iter max_iters : Int) :
    List DrawnString :=
  let condition_strings := splitNl current_state.data
  (if condition_strings.length = 1 then
    [{ x := 395, y := 340,
       text := String.mk (condition_strings.getD 0 []).dropLast ++ " after " ++
         toString current_iter ++ " iterations." }]
   else []) ++
  (if condition_strings.length = 2 ∧ current_iter = max_iters then
    [{ x := 395, y := 355, text := String.mk (condition_strings.getD 0 []) },
     { x := 395, y := 340, text := String.mk (condition_strings.getD 1 []) }]
   else []) ++
  (if condition_strings.length = 2 ∧ current_iter < max_iters then
    [{ x := 395, y := 355,
       text := "During iteration " ++ toString current_iter ++ " / " ++
         toString max_iters ++ " " },
     { x := 395, y := 340, text := String.mk (condition_strings.getD 1 []) }]
   else [])

end PdfReport

/-! Sample values used by the witness theorems. -/

/-- A sample pixel stack of shape `(8, 16, 16)`. -/
def sampleStack : PixelStack := { shape := (8, 16, 16) }

/-- A fully initialised sample parameter set. -/
def sampleParams : PsfandFitParameters :=
  { em_wavelength := 520
    num_aperture := 14/10
    refractive_index := 1518/1000
    xy_res := 50
    z_res := 100
    psf_data := sampleStack
    psf_data_prepped := sampleStack
    xy_size := 16
    z_size := 8
    max_iterations := 100
    pupil_tolerance := 1/100000000
    mse_tolerance := 1/1000000
    phase_tolerance := 1/2
    is_initiated := true }

/-- A sample three-entry Noll dictionary. -/
def sampleNoll : List (Nat × String) := [(1, "Piston"), (2, "Tip"), (3, "Tilt")]

namespace ZernikeDecomposition

/-- Lemma: `classifyZip` with no coefficients leaves the polynomial list
untouched. -/
theorem classifyZip_nil (ps : List ZernikePolynomial) (tol : ℚ) :
    classifyZip ps [] tol = ps := by
  cases ps <;> rfl

/-- Lemma: `classifyZip` never changes the catalog length. -/
theorem classifyZip_length (ps : List ZernikePolynomial) (cs : List ℚ) (tol : ℚ) :
    (classifyZip ps cs tol).length = ps.length := by
  induction ps generalizing cs with
  | nil => cases cs <;> rfl
  | cons p ps ih =>
    cases cs with
    | nil => rfl
    | cons c cs => simp [classifyZip, ih]

/-- A paired entry of `classifyZip` gets the coefficient as value and
the decided tolerance flag. -/
theorem classifyZip_getD_paired (ps : List ZernikePolynomial) (cs : List ℚ)
    (tol : ℚ) (dflt : ZernikePolynomial) (i : Nat)
    (hp : i < ps.length) (hc : i < cs.length) :
    (classifyZip ps cs tol).getD i dflt =
      { ps.getD i dflt with
        value := cs.getD i 0
        in_tolerance := some (decide (|cs.getD i 0| < tol)) } := by
  induction ps generalizing cs i with
  | nil => simp at hp
  | cons p ps ih =>
    cases cs with
    | nil => simp at hc
    | cons c cs =>
      cases i with
      | zero => rfl
      | succ j =>
        simp only [classifyZip, List.getD_cons_succ]
        exact ih cs j (by simpa using hp) (by simpa using hc)

/-- An unpaired entry of `classifyZip` is left exactly as it was. -/
theorem classifyZip_getD_unpaired (ps : List ZernikePolynomial) (cs : List ℚ)
    (tol : ℚ) (dflt : ZernikePolynomial) (i : Nat) (hc : cs.length ≤ i) :
    (classifyZip ps cs tol).getD i dflt = ps.getD i dflt := by
  induction ps generalizing cs i with
  | nil => cases cs <;> rfl
  | cons p ps ih =>
    cases cs with
    | nil => rw [classifyZip_nil]
    | cons c cs =>
      cases i with
      | zero => simp at hc
      | succ j =>
        simp only [classifyZip, List.getD_cons_succ]
        exact ih cs j (by simpa using hc)

/-- Truncating the coefficients to the catalog length changes nothing:
`zip` already truncates. -/
theorem classifyZip_take (ps : List ZernikePolynomial) (cs : List ℚ) (tol : ℚ) :
    classifyZip ps (cs.take ps.length) tol = classifyZip ps cs tol := by
  induction ps generalizing cs with
  | nil => cases cs <;> rfl
  | cons p ps ih =>
    cases cs with
    | nil => rfl
    | cons c cs => simp [classifyZip, ih]

/-- A freshly built catalog entry has value 0 and no tolerance flag. -/
theorem initialize_mem (d : List (Nat × String)) :
    ∀ p ∈ initialize_polynomial_list d, p.value = 0 ∧ p.in_tolerance = none := by
  intro p hp
  rw [initialize_polynomial_list, List.mem_mergeSort] at hp
  obtain ⟨kv, _, rfl⟩ := List.mem_map.mp hp
  exact ⟨rfl, rfl⟩

/-- The catalog has one entry per dictionary item. -/
theorem initialize_length (d : List (Nat × String)) :
    (initialize_polynomial_list d).length = d.length := by
  simp [initialize_polynomial_list]

/-- The catalog is sorted ascending by order. -/
theorem initialize_sorted (d : List (Nat × String)) :
    (initialize_polynomial_list d).Pairwise (fun a b => a.order ≤ b.order) := by
  have h := @List.sorted_mergeSort ZernikePolynomial
    (fun a b => decide (a.order ≤ b.order))
    (by intro a b c hab hbc
        simp only [decide_eq_true_eq] at *
        omega)
    (by intro a b
        simp only [Bool.or_eq_true, decide_eq_true_eq]
        omega)
    (d.map (fun kv => ZernikePolynomial.mk kv.1 kv.2 0 none))
  exact h.imp (fun hab => of_decide_eq_true hab)

/-- Re-initialisation is idempotent: the dictionary is never changed, so
every call rebuilds the same list. -/
theorem reinitialize_idem (s : ZernikeDecomposition) :
    s.reinitialize.reinitialize = s.reinitialize := rfl

/-- Any positive number of re-initialisations equals one. -/
theorem reinitialize_iterate (s : ZernikeDecomposition) (k : Nat) (hk : 1 ≤ k) :
    reinitialize^[k] s = s.reinitialize := by
  induction k with
  | zero => omega
  | succ n ih =>
    rcases Nat.eq_or_lt_of_le hk with h1 | h1
    · rw [← h1]
      rfl
    · rw [Function.iterate_succ_apply', ih (by omega), reinitialize_idem]

/-- Length of `ordered_coeff_names` equals the dictionary length. -/
theorem init_ordered_length (d : List (Nat × String)) :
    (init d).ordered_coeff_names.length = d.length := by
  simp [init]

/-- Length of the initial catalog equals the dictionary length. -/
theorem init_polynomials_length (d : List (Nat × String)) :
    (init d).zernike_polynomials.length = d.length :=
  initialize_length d

end ZernikeDecomposition

/-- Concrete evaluation of the decomposition state over `sampleNoll`
(the dictionary is already sorted, so the stable sort is the
identity). -/
theorem init_sampleNoll_eval :
    ZernikeDecomposition.init sampleNoll =
      { zernike_names_dict := sampleNoll
        ordered_coeff_names := ["Piston", "Tip", "Tilt"]
        zernike_polynomials :=
          [{ order := 1, name := "Piston", value := 0, in_tolerance := none },
           { order := 2, name := "Tip", value := 0, in_tolerance := none },
           { order := 3, name := "Tilt", value := 0, in_tolerance := none }]
        important_coeff_orders := [5, 6, 7, 8, 11] } := by
  unfold ZernikeDecomposition.init ZernikeDecomposition.initialize_polynomial_list
  rw [List.mergeSort_of_sorted (by decide)]
  rfl

/-- Lemma: `getD` commutes with an in-bounds `take`. -/
theorem getD_take_of_lt (cs : List ℚ) (n i : Nat) (h : i < n) :
    (cs.take n).getD i 0 = cs.getD i 0 := by
  induction cs generalizing n i with
  | nil => simp
  | cons c cs ih =>
    cases n with
    | zero => omega
    | succ m =>
      cases i with
      | zero => rfl
      | succ j => simpa using ih m j (by omega)

/-- C2: classification sets each paired catalog entry's value to the raw
coefficient and its flag to `abs(value) < tolerance`; in particular
coefficients `[0.3, -0.6]` at tolerance `0.5` mark the first entry
within and the second outside. -/
theorem C2_classification_sets_value_and_flag (s : ZernikeDecomposition)
    (coeffs : List ℚ) (tol : ℚ) (dflt : ZernikePolynomial) (i : Nat)
    (hp : i < s.zernike_polynomials.length)
    (hn : i < s.ordered_coeff_names.length)
    (hc : i < coeffs.length) :
    ((s.decomposition_from_phase_retrieval coeffs tol).zernike_polynomials.getD i dflt =
      { s.zernike_polynomials.getD i dflt with
        value := coeffs.getD i 0
        in_tolerance := some (decide (|coeffs.getD i 0| < tol)) }) ∧
    (((ZernikeDecomposition.init sampleNoll).decomposition_from_phase_retrieval
        [3/10, -6/10] (5/10)).zernike_polynomials.map
          (fun p => (p.value, p.in_tolerance)) =
      [(3/10, some true), (-6/10, some false), (0, none)]) := by
  constructor
  · unfold ZernikeDecomposition.decomposition_from_phase_retrieval
    have hc2 : i < (coeffs.take s.ordered_coeff_names.length).length := by
      simp only [List.length_take]
      omega
    rw [ZernikeDecomposition.classifyZip_getD_paired _ _ _ _ _ hp hc2,
        getD_take_of_lt _ _ _ hn]
  · rw [init_sampleNoll_eval]
    simp only [ZernikeDecomposition.decomposition_from_phase_retrieval,
      ZernikeDecomposition.classifyZip, List.take, List.map]
    norm_num [abs_of_nonneg]

/-- Witness for C2: the concrete classification from the spec example. -/
theorem C2_classification_sets_value_and_flag_witness :
    ((ZernikeDecomposition.init sampleNoll).decomposition_from_phase_retrieval
        [3/10, -6/10] (5/10)).zernike_polynomials.map
          (fun p => (p.value, p.in_tolerance)) =
      [(3/10, some true), (-6/10, some false), (0, none)] :=
  (C2_classification_sets_value_and_flag (ZernikeDecomposition.init sampleNoll)
    [3/10, -6/10] (5/10) { order := 0, name := "", value := 0, in_tolerance := none } 0
    (by rw [ZernikeDecomposition.init_polynomials_length]; decide)
    (by rw [ZernikeDecomposition.init_ordered_length]; decide)
    (by decide)).2

/-- C3: classification is total on length mismatches: the catalog keeps
its length, trailing unpaired entries of a fresh catalog keep value 0
and stay unclassified, and coefficients beyond the catalog length are
ignored. -/
theorem C3_truncating_zip_boundaries (s : ZernikeDecomposition)
    (d : List (Nat × String)) (coeffs extra : List ℚ) (tol : ℚ)
    (dflt : ZernikePolynomial) (i : Nat) :
    ((s.decomposition_from_phase_retrieval coeffs tol).zernike_polynomials.length =
      s.zernike_polynomials.length) ∧
    (coeffs.length ≤ i →
      ((ZernikeDecomposition.init d).decomposition_from_phase_retrieval coeffs
        tol).zernike_polynomials.getD i dflt =
      (ZernikeDecomposition.init d).zernike_polynomials.getD i dflt) ∧
    (coeffs.length ≤ i → i < d.length →
      ((((ZernikeDecomposition.init d).decomposition_from_phase_retrieval coeffs
          tol).zernike_polynomials.getD i dflt).value = 0 ∧
       (((ZernikeDecomposition.init d).decomposition_from_phase_retrieval coeffs
          tol).zernike_polynomials.getD i dflt).in_tolerance = none)) ∧
    (coeffs.length = d.length →
      (ZernikeDecomposition.init d).decomposition_from_phase_retrieval
        (coeffs ++ extra) tol =
      (ZernikeDecomposition.init d).decomposition_from_phase_retrieval coeffs tol) := by
  have unpaired : ∀ (cs : List ℚ) (j : Nat), cs.length ≤ j →
      ((ZernikeDecomposition.init d).decomposition_from_phase_retrieval cs
        tol).zernike_polynomials.getD j dflt =
      (ZernikeDecomposition.init d).zernike_polynomials.getD j dflt := by
    intro cs j hj
    unfold ZernikeDecomposition.decomposition_from_phase_retrieval
    apply ZernikeDecomposition.classifyZip_getD_unpaired
    calc (cs.take (ZernikeDecomposition.init d).ordered_coeff_names.length).length
        ≤ cs.length := by simp [List.length_take]
      _ ≤ j := hj
  refine ⟨ZernikeDecomposition.classifyZip_length _ _ _, unpaired coeffs i, ?_, ?_⟩
  · intro hi hd
    rw [unpaired coeffs i hi]
    have hlen : i < (ZernikeDecomposition.init d).zernike_polynomials.length := by
      rw [ZernikeDecomposition.init_polynomials_length]
      exact hd
    have hmem : (ZernikeDecomposition.init d).zernike_polynomials.getD i dflt ∈
        (ZernikeDecomposition.init d).zernike_polynomials := by
      rw [List.getD_eq_getElem _ _ hlen]
      exact List.getElem_mem hlen
    exact ZernikeDecomposition.initialize_mem d _ hmem
  · intro h
    simp only [ZernikeDecomposition.decomposition_from_phase_retrieval]
    rw [ZernikeDecomposition.init_ordered_length, ← h, List.take_left,
        List.take_length]

/-- Witness for C3: with one coefficient the third sample entry stays at
value 0 / unclassified, and appending a fourth coefficient beyond the
three-entry catalog changes nothing. -/
theorem C3_truncating_zip_boundaries_witness :
    (((((ZernikeDecomposition.init sampleNoll).decomposition_from_phase_retrieval
        [1/4] (1/2)).zernike_polynomials.getD 2
          { order := 0, name := "", value := 0, in_tolerance := none }).value = 0) ∧
     ((((ZernikeDecomposition.init sampleNoll).decomposition_from_phase_retrieval
        [1/4] (1/2)).zernike_polynomials.getD 2
          { order := 0, name := "", value := 0, in_tolerance := none }).in_tolerance
        = none)) ∧
    ((ZernikeDecomposition.init sampleNoll).decomposition_from_phase_retrieval
        ([1/4, 1/2, 3/4] ++ [9]) (1/2) =
      (ZernikeDecomposition.init sampleNoll).decomposition_from_phase_retrieval
        [1/4, 1/2, 3/4] (1/2)) :=
  ⟨(C3_truncating_zip_boundaries (ZernikeDecomposition.init sampleNoll) sampleNoll
      [1/4] [] (1/2) { order := 0, name := "", value := 0, in_tolerance := none }
      2).2.2.1 (by decide) (by decide),
   (C3_truncating_zip_boundaries (ZernikeDecomposition.init sampleNoll) sampleNoll
      [1/4, 1/2, 3/4] [9] (1/2)
      { order := 0, name := "", value := 0, in_tolerance := none } 0).2.2.2
      (by decide)⟩

/-- C4: after any positive number of catalog re-initialisations every
entry has value 0 and no tolerance flag, and the catalog — its length
and its ascending sequence of order identifiers included — is the same
list on every call. -/
theorem C4_reinitialize_resets_and_preserves_catalog (s : ZernikeDecomposition)
    (k j : Nat) (hk : 1 ≤ k) (hj : 1 ≤ j) :
    (∀ p ∈ (ZernikeDecomposition.reinitialize^[k] s).zernike_polynomials,
      p.value = 0 ∧ p.in_tolerance = none) ∧
    (ZernikeDecomposition.reinitialize^[k] s).zernike_polynomials =
      (ZernikeDecomposition.reinitialize^[j] s).zernike_polynomials ∧
    (ZernikeDecomposition.reinitialize^[k] s).zernike_polynomials.length =
      s.zernike_names_dict.length ∧
    ((ZernikeDecomposition.reinitialize^[k] s).zernike_polynomials.map
      ZernikePolynomial.order).Pairwise (· ≤ ·) := by
  rw [ZernikeDecomposition.reinitialize_iterate s k hk,
      ZernikeDecomposition.reinitialize_iterate s j hj]
  refine ⟨ZernikeDecomposition.initialize_mem _, rfl,
    ZernikeDecomposition.initialize_length _, ?_⟩
  rw [List.pairwise_map]
  exact ZernikeDecomposition.initialize_sorted _

/-- Witness for C4: one and two re-initialisations of the sample state
produce the same catalog, of the dictionary's length. -/
theorem C4_reinitialize_resets_and_preserves_catalog_witness :
    (ZernikeDecomposition.reinitialize^[1]
        (ZernikeDecomposition.init sampleNoll)).zernike_polynomials =
      (ZernikeDecomposition.reinitialize^[2]
        (ZernikeDecomposition.init sampleNoll)).zernike_polynomials ∧
    (ZernikeDecomposition.reinitialize^[1]
        (ZernikeDecomposition.init sampleNoll)).zernike_polynomials.length =
      sampleNoll.length :=
  ⟨(C4_reinitialize_resets_and_preserves_catalog
      (ZernikeDecomposition.init sampleNoll) 1 2 (by decide) (by decide)).2.1,
   (C4_reinitialize_resets_and_preserves_catalog
      (ZernikeDecomposition.init sampleNoll) 1 2 (by decide) (by decide)).2.2.1⟩

/-- C1: starting a run succeeds, and background execution begins, exactly
when the eight required fields are all non-zero and the pixel stack's
shape equals `(z_size, xy_size, xy_size)`; otherwise `verify` fails
(validation warning) and `initiate_pr` starts nothing. -/
theorem C1_start_requires_verified_parameters (p : PsfandFitParameters)
    (st : PrState) :
    (p.verify = true ↔
      (p.em_wavelength ≠ 0 ∧ p.num_aperture ≠ 0 ∧ p.refractive_index ≠ 0 ∧
       p.xy_res ≠ 0 ∧ p.z_res ≠ 0 ∧ p.max_iterations ≠ 0 ∧
       p.pupil_tolerance ≠ 0 ∧ p.mse_tolerance ≠ 0 ∧
       p.psf_data.shape = (p.z_size, p.xy_size, p.xy_size))) ∧
    ((initiate_pr p st).isSome = true ↔ p.verify = true) := by
  constructor
  · simp only [PsfandFitParameters.verify, Bool.and_eq_true, decide_eq_true_eq]
    tauto
  · unfold initiate_pr
    cases h : p.verify <;> simp [h]

/-- C7: the acquisition step either succeeds, setting every acquisition
field and the `is_initiated` flag, or fails with one of two
distinguishable error kinds (`AssertionError` = unsupported
format/invalid data, any other exception = unreadable/invalid path),
leaving the flag false and every field untouched; the two failure
warnings are distinct. -/
theorem C7_acquisition_succeeds_or_fails_distinguishably
    (prep : PixelStack → Nat → PixelStack) (s : PsfandFitParameters) :
    (∀ info, PsfandFitParameters.read_data_and_parameters prep s (.ok info) =
      ({ s with
          num_aperture := info.numerical_aperture
          refractive_index := info.refractive_index
          xy_res := info.pixel_size_xy
          z_res := info.pixel_size_z
          xy_size := info.image_size_xy
          z_size := info.image_size_z
          psf_data := info.image_data
          psf_data_prepped := prep info.image_data (info.image_size_xy * 2)
          is_initiated := true }, none)) ∧
    (∀ msg, PsfandFitParameters.read_data_and_parameters prep s (.assertionError msg) =
      ({ s with is_initiated := false },
        some "PSF file parameters or data not read correctly")) ∧
    (∀ msg, PsfandFitParameters.read_data_and_parameters prep s (.otherError msg) =
      ({ s with is_initiated := false }, some "Invalid PSF file path")) ∧
    (∀ m m', (PsfandFitParameters.read_data_and_parameters prep s (.assertionError m)).2 ≠
      (PsfandFitParameters.read_data_and_parameters prep s (.otherError m')).2) := by
  refine ⟨fun _ => rfl, fun _ => rfl, fun _ => rfl, fun m m' => ?_⟩
  simp [PsfandFitParameters.read_data_and_parameters]

/-- Witness for C7 at a concrete parameter state and error messages. -/
theorem C7_acquisition_succeeds_or_fails_distinguishably_witness :
    PsfandFitParameters.read_data_and_parameters (fun d _ => d) sampleParams
      (.assertionError "File format not supported") =
      ({ sampleParams with is_initiated := false },
        some "PSF file parameters or data not read correctly") ∧
    (PsfandFitParameters.read_data_and_parameters (fun d _ => d) sampleParams
      (.assertionError "File format not supported")).2 ≠
      (PsfandFitParameters.read_data_and_parameters (fun d _ => d) sampleParams
        (.otherError "No such file or directory")).2 :=
  ⟨(C7_acquisition_succeeds_or_fails_distinguishably (fun d _ => d) sampleParams).2.1
      "File format not supported",
   (C7_acquisition_succeeds_or_fails_distinguishably (fun d _ => d) sampleParams).2.2.2
      "File format not supported" "No such file or directory"⟩

/-- The three cell writes for the polynomial at `zip` index `i` of the
result-row block sit at row `r + i + 11`. -/
theorem polynomial_rows_mem (dflt : ZernikePolynomial) :
    ∀ (zr : List ZernikePolynomial) (r i : Nat), i < zr.length →
    ({ row := r + i + 11, col := 0, value := .i ((zr.getD i dflt).order : Int),
       fmt := .default } : CellWrite) ∈ ZdResultWorkbook.polynomial_rows zr r ∧
    ({ row := r + i + 11, col := 1, value := .s (zr.getD i dflt).name,
       fmt := .default } : CellWrite) ∈ ZdResultWorkbook.polynomial_rows zr r ∧
    ({ row := r + i + 11, col := 2, value := .q (zr.getD i dflt).value,
       fmt := .shortNumber } : CellWrite) ∈ ZdResultWorkbook.polynomial_rows zr r := by
  intro zr
  induction zr with
  | nil =>
    intro r i h
    simp at h
  | cons p ps ih =>
    intro r i h
    simp only [ZdResultWorkbook.polynomial_rows]
    cases i with
    | zero =>
      exact ⟨List.Mem.head _, List.Mem.tail _ (List.Mem.head _),
        List.Mem.tail _ (List.Mem.tail _ (List.Mem.head _))⟩
    | succ j =>
      have hj : j < ps.length := by simpa using h
      have h3 := ih (r + 1) j hj
      have harith : r + (j + 1) + 11 = (r + 1) + j + 11 := by omega
      rw [harith]
      simp only [List.getD_cons_succ]
      exact ⟨List.Mem.tail _ (List.Mem.tail _ (List.Mem.tail _ h3.1)),
        List.Mem.tail _ (List.Mem.tail _ (List.Mem.tail _ h3.2.1)),
        List.Mem.tail _ (List.Mem.tail _ (List.Mem.tail _ h3.2.2))⟩

/-- C5: the tabular report writes the source identifier as its first
cell at row 0 and, for each catalog entry `i`, a row at `11 + i` holding
the entry's order, name, and value, the value cell carrying the fixed
2-decimal format and exactly the input catalog value. -/
theorem C5_workbook_layout (path : String) (p : PsfandFitParameters)
    (st : PrState) (zr : List ZernikePolynomial) (dflt : ZernikePolynomial)
    (i : Nat) (h : i < zr.length) :
    (ZdResultWorkbook.add_entries path p st zr).head? =
      some { row := 0, col := 0, value := .s path, fmt := .bold } ∧
    ({ row := 11 + i, col := 0, value := .i ((zr.getD i dflt).order : Int),
       fmt := .default } : CellWrite) ∈ ZdResultWorkbook.add_entries path p st zr ∧
    ({ row := 11 + i, col := 1, value := .s (zr.getD i dflt).name,
       fmt := .default } : CellWrite) ∈ ZdResultWorkbook.add_entries path p st zr ∧
    ({ row := 11 + i, col := 2, value := .q (zr.getD i dflt).value,
       fmt := .shortNumber } : CellWrite) ∈ ZdResultWorkbook.add_entries path p st zr := by
  have h3 := polynomial_rows_mem dflt zr 0 i h
  have harith : 0 + i + 11 = 11 + i := by omega
  rw [harith] at h3
  refine ⟨rfl, ?_, ?_, ?_⟩ <;>
  · simp only [ZdResultWorkbook.add_entries, List.mem_cons, List.mem_append]
    tauto

/-- Witness for C5 on a one-entry catalog: the first write holds the
path, and row 11 holds the entry's value with the 2-decimal format. -/
theorem C5_workbook_layout_witness :
    (ZdResultWorkbook.add_entries "psf.tif" sampleParams PrState.init
        [{ order := 11, name := "Primary Spherical", value := -3/4,
           in_tolerance := some false }]).head? =
      some { row := 0, col := 0, value := .s "psf.tif", fmt := .bold } ∧
    ({ row := 11, col := 2, value := .q (-3/4), fmt := .shortNumber } : CellWrite) ∈
      ZdResultWorkbook.add_entries "psf.tif" sampleParams PrState.init
        [{ order := 11, name := "Primary Spherical", value := -3/4,
           in_tolerance := some false }] :=
  ⟨(C5_workbook_layout "psf.tif" sampleParams PrState.init
      [{ order := 11, name := "Primary Spherical", value := -3/4,
         in_tolerance := some false }]
      { order := 0, name := "", value := 0, in_tolerance := none } 0 (by decide)).1,
   (C5_workbook_layout "psf.tif" sampleParams PrState.init
      [{ order := 11, name := "Primary Spherical", value := -3/4,
         in_tolerance := some false }]
      { order := 0, name := "", value := 0, in_tolerance := none } 0 (by decide)).2.2.2⟩

/-- C6: the PDF termination note comes in exactly the three layouts of
the source: a single-line status yields one summary line with the last
character sliced off; a two-line status at the maximum iteration yields
both lines verbatim; a two-line status below the maximum yields a
"During iteration i / n " line above the second status line. -/
theorem C6_termination_note_layouts (msg : String) (it mx : Int) :
    ((PdfReport.splitNl msg.data).length = 1 →
      PdfReport.terminationNote msg it mx =
        [{ x := 395, y := 340,
           text := String.mk ((PdfReport.splitNl msg.data).getD 0 []).dropLast ++
             " after " ++ toString it ++ " iterations." }]) ∧
    ((PdfReport.splitNl msg.data).length = 2 → it = mx →
      PdfReport.terminationNote msg it mx =
        [{ x := 395, y := 355,
           text := String.mk ((PdfReport.splitNl msg.data).getD 0 []) },
         { x := 395, y := 340,
           text := String.mk ((PdfReport.splitNl msg.data).getD 1 []) }]) ∧
    ((PdfReport.splitNl msg.data).length = 2 → it < mx →
      PdfReport.terminationNote msg it mx =
        [{ x := 395, y := 355,
           text := "During iteration " ++ toString it ++ " / " ++
             toString mx ++ " " },
         { x := 395, y := 340,
           text := String.mk ((PdfReport.splitNl msg.data).getD 1 []) }]) := by
  refine ⟨fun h1 => ?_, fun h2 he => ?_, fun h2 hlt => ?_⟩
  · simp [PdfReport.terminationNote, h1]
  · subst he
    simp [PdfReport.terminationNote, h2]
  · simp [PdfReport.terminationNote, h2, hlt, hlt.ne]

/-- Witness for C6: one concrete status message per layout. -/
theorem C6_termination_note_layouts_witness :
    PdfReport.terminationNote "Pupil function converged." 7 100 =
      [{ x := 395, y := 340,
         text := "Pupil function converged after 7 iterations." }] ∧
    PdfReport.terminationNote
        "Maximum iterations reached.\nPhase retrieval unsuccessful." 100 100 =
      [{ x := 395, y := 355, text := "Maximum iterations reached." },
       { x := 395, y := 340, text := "Phase retrieval unsuccessful." }] ∧
    PdfReport.terminationNote "Still running.\nPlease wait." 42 100 =
      [{ x := 395, y := 355, text := "During iteration 42 / 100 " },
       { x := 395, y := 340, text := "Please wait." }] := by
  refine ⟨?_, ?_, ?_⟩
  · have h := (C6_termination_note_layouts "Pupil function converged." 7 100).1
      (by decide)
    rw [h]
    decide
  · have h := (C6_termination_note_layouts
      "Maximum iterations reached.\nPhase retrieval unsuccessful." 100 100).2.1
      (by decide) rfl
    rw [h]
    decide
  · have h := (C6_termination_note_layouts "Still running.\nPlease wait." 42 100).2.2
      (by decide) (by decide)
    rw [h]
    decide

/-- C8: while the phase-retrieval thread is alive, one poll re-schedules
itself after 250 ms and triggers artifact re-rendering exactly when the
observed iteration is positive and divisible by 5. -/
theorem C8_poll_cadence_and_rerender (st : PrState) :
    (check_pr_results true st).rescheduleAfterMs = some 250 ∧
    ((check_pr_results true st).rerender = true ↔
      0 < st.current_iter ∧ st.current_iter % 5 = 0) := by
  constructor
  · rfl
  · simp [check_pr_results]

/-- C9: resetting the progress state zeroes the iteration and both
differences and clears the finished flag, while leaving the status
message exactly as it was (initially "Phase retrieval not started
yet"). -/
theorem C9_reset_state_preserves_message (s : PrState) :
    s.reset_state.current_iter = 0 ∧
    s.reset_state.current_pupil_diff = 0 ∧
    s.reset_state.current_mse_diff = 0 ∧
    s.reset_state.pr_finished = false ∧
    s.reset_state.current_state = s.current_state ∧
    PrState.init.current_state = "Phase retrieval not started yet" :=
  ⟨rfl, rfl, rfl, rfl, rfl, rfl⟩

/-- C10: the voxel-aspect accessor divides with no guard: it raises
`ZeroDivisionError` whenever `xy_res = 0`, and returns
`z_res / xy_res` exactly when `xy_res ≠ 0`. -/
theorem C10_voxel_aspect_division_by_zero (p : PsfandFitParameters) :
    (p.xy_res = 0 → p.voxel_aspect = .error "ZeroDivisionError") ∧
    (p.xy_res ≠ 0 → p.voxel_aspect = .ok ((p.z_res : ℚ) / (p.xy_res : ℚ))) := by
  constructor
  · intro h
    simp [PsfandFitParameters.voxel_aspect, PsfandFitParameters.pyDiv, h]
  · intro h
    have h2 : (p.xy_res : ℚ) ≠ 0 := Int.cast_ne_zero.mpr h
    simp [PsfandFitParameters.voxel_aspect, PsfandFitParameters.pyDiv, h2]

/-- Witness for C10: a state with `xy_res = 0` errors, one with
`xy_res = 50` yields the aspect ratio `100 / 50 = 2`. -/
theorem C10_voxel_aspect_division_by_zero_witness :
    ({ sampleParams with xy_res := 0 } : PsfandFitParameters).voxel_aspect =
      .error "ZeroDivisionError" ∧
    sampleParams.voxel_aspect = .ok 2 := by
  constructor
  · exact (C10_voxel_aspect_division_by_zero { sampleParams with xy_res := 0 }).1 rfl
  · have h := (C10_voxel_aspect_division_by_zero sampleParams).2 (by decide)
    rw [h]
    norm_num [sampleParams]

end PhaseRetrievalGUI
